import Mathlib

/-!
Shallow embedding of the jump-panel bot (src/bot.py): the record store,
the pure button renderer, the per-record message editor and the periodic
reconciliation loop, together with theorems settling the frozen claims.
-/

/-- Channel kinds distinguished by the `isinstance` checks in bot.py
(`discord.TextChannel`, `discord.VoiceChannel`, `discord.StageChannel`,
`discord.Thread`, `discord.CategoryChannel`; forums and anything else fall
into `forum`/other). -/
inductive ChannelType where
  | text
  | voice
  | stage
  | thread
  | forum
  | category
  deriving DecidableEq, Repr

/-- Snapshot data for one guild channel: its name, structural kind, the
current voice-member count (`len(ch.members)`), and its `category_id`
attribute used by `is_under_category`. -/
structure Channel where
  name : String
  ctype : ChannelType
  members : Nat
  categoryId : Option Nat
  deriving DecidableEq, Repr

/-- A guild snapshot: its id and the channel table backing
`guild.get_channel`. -/
structure Guild where
  id : Nat
  channels : List (Nat × Channel)
  deriving DecidableEq, Repr

/-- `resolve_channel(guild, cid)` = `guild.get_channel(cid)` (bot.py line 76). -/
def resolve_channel (g : Guild) (cid : Nat) : Option Channel :=
  (g.channels.find? (fun p => p.1 == cid)).map Prod.snd

/-- `channel_jump_url` (bot.py line 70): the deep-link URL of a channel. -/
def channel_jump_url (guild_id : Nat) (channel_id : Nat) : String :=
  "https://discord.com/channels/" ++ toString guild_id ++ "/" ++ toString channel_id

/-- `is_under_category` (bot.py line 79): `ch.category_id == category_id`. -/
def is_under_category (ch : Channel) (category_id : Nat) : Bool :=
  ch.categoryId == some category_id

/-- `vc_member_count` (bot.py line 85): `len(ch.members)` for voice and
stage channels, `0` for everything else. -/
def vc_member_count (ch : Channel) : Nat :=
  match ch.ctype with
  | ChannelType.voice => ch.members
  | ChannelType.stage => ch.members
  | _ => 0

/-- `label_for_channel` (bot.py line 93): text channels get a `#` marker,
voice and stage channels get a speaker marker plus the occupant count in
parentheses, everything else renders as the bare name. -/
def label_for_channel (ch : Channel) : String :=
  match ch.ctype with
  | ChannelType.text => "#" ++ ch.name
  | ChannelType.voice => "🔊 " ++ ch.name ++ " (" ++ toString (vc_member_count ch) ++ ")"
  | ChannelType.stage => "🔊 " ++ ch.name ++ " (" ++ toString (vc_member_count ch) ++ ")"
  | _ => ch.name

/-- A rendered link-style button (`discord.ui.Button(label=…, style=link,
url=…)`); the style is always the link style so only label and url are
carried. -/
structure Button where
  label : String
  url : String
  deriving DecidableEq, Repr

/-- Structural worker for `split_rows`: the fuel argument (instantiated
with the list length, which bounds the number of produced rows when
`per_row` is positive) only makes the recursion structural; the
`split_rows_eq` lemma below shows the wrapper satisfies the intended
chunking equation. -/
def split_rows_go {α : Type} (per_row : Nat) : Nat → List α → List (List α)
  | _, [] => []
  | 0, _ :: _ => []
  | fuel + 1, a :: l =>
    (a :: l).take per_row :: split_rows_go per_row fuel ((a :: l).drop per_row)

/-- `split_rows` (bot.py line 73): chunk the button list into rows of
`per_row` buttons (`[buttons[i:i+per_row] for i in range(0, len(buttons),
per_row)]`).  Python raises on `per_row = 0`; that case is unreachable in
the program (callers always pass 5) and is mapped to `[]` here. -/
def split_rows {α : Type} (buttons : List α) (per_row : Nat) : List (List α) :=
  if per_row = 0 then [] else split_rows_go per_row buttons.length buttons

/-- The single loop body of `build_buttons_for`: the button built for a
channel id when the id resolves in the snapshot. -/
def render_button (g : Guild) (cid : Nat) : Option Button :=
  (resolve_channel g cid).map (fun ch =>
    { label := label_for_channel ch, url := channel_jump_url g.id cid })

/-- Whether a channel id resolves in the guild snapshot. -/
def resolves (g : Guild) (cid : Nat) : Bool :=
  (resolve_channel g cid).isSome

/-- The accumulation loop of `build_buttons_for` (bot.py lines 107-115):
one pass over the input ids appending, per id, either a button plus the id
to `ok_ids`, or the id to `ng_ids`. -/
def build_buttons_loop (g : Guild) : List Nat → List Button × List Nat × List Nat
  | [] => ([], [], [])
  | cid :: rest =>
    let tail := build_buttons_loop g rest
    match resolve_channel g cid with
    | none => (tail.1, tail.2.1, cid :: tail.2.2)
    | some ch =>
      ({ label := label_for_channel ch, url := channel_jump_url g.id cid } :: tail.1,
       cid :: tail.2.1, tail.2.2)

/-- `build_buttons_for` (bot.py line 102): returns `("", rows, ok_ids,
ng_ids)` where `rows = split_rows(buttons, per_row=5)[:5]`. -/
def build_buttons_for (g : Guild) (channel_ids : List Nat) :
    String × List (List Button) × List Nat × List Nat :=
  let acc := build_buttons_loop g channel_ids
  ("", (split_rows acc.1 5).take 5, acc.2.1, acc.2.2)

/-- One persisted panel record, with the field names written by
`add_jump_set_record` (bot.py lines 146-154); `created_at` is the ISO
timestamp string. -/
structure PanelRecord where
  guild_id : Nat
  message_channel_id : Nat
  message_id : Nat
  channel_ids : List Nat
  category_id : Nat
  description : String
  created_at : String
  deriving DecidableEq, Repr

/-- Observable states of the backing `data.json` file: absent, holding a
valid serialized collection, or truncated/partial (the state `open(DATA_FILE,
"w")` leaves the file in before `json.dump` finishes). -/
inductive FileState where
  | absent
  | content (d : List PanelRecord)
  | truncated
  deriving DecidableEq, Repr

/-- The `jump_sets` collection obtained by `load_data` + `DB.setdefault`
(bot.py lines 30-48): an absent file and unparsable (truncated) content
both yield the empty collection; a valid file yields its records. -/
def load_jump_sets (f : FileState) : List PanelRecord :=
  match f with
  | FileState.absent => []
  | FileState.truncated => []
  | FileState.content d => d

/-- The message `save_data` logs when the write raises (bot.py line 45). -/
def save_error_log : String := "Failed to save data.json"

/-- Combined in-process store state: the in-memory `DB["jump_sets"]`
collection, the on-disk file, the log, and a count of file-write attempts
(each `save_data` call is one attempt). -/
structure StoreState where
  jump_sets : List PanelRecord
  file : FileState
  log : List String
  writes : Nat
  deriving DecidableEq, Repr

/-- `save_data` (bot.py lines 40-45) on the store state: a successful
write replaces the file with the serialized collection; a failing write
logs `save_error_log`.  Either way the in-memory collection is untouched
and one write was attempted.  `ok` models whether the `try` body raised. -/
def save_data (ok : Bool) (st : StoreState) : StoreState :=
  if ok then
    { st with file := FileState.content st.jump_sets, writes := st.writes + 1 }
  else
    { st with log := st.log ++ [save_error_log], writes := st.writes + 1 }

/-- The sequence of on-disk states the data file passes through during a
`save_data` call (bot.py lines 42-43): starting from `old`, the
`open(DATA_FILE, "w")` call truncates the file in place, then `json.dump`
writes the new collection.  There is no temporary file and no rename. -/
def save_data_file_states (old : FileState) (d : List PanelRecord) : List FileState :=
  [old, FileState.truncated, FileState.content d]

/-- The crash-safety property the claim asserts of `save_data`: every
intermediate on-disk state during the write is either the previous valid
snapshot or the new one, so a crash mid-write never corrupts the previous
snapshot. -/
def crash_safe_save (old : FileState) (d : List PanelRecord) : Prop :=
  ∀ s ∈ save_data_file_states old d, s = old ∨ s = FileState.content d

/-- `add_jump_set_record` (bot.py lines 145-155): append the new record to
`DB["jump_sets"]` and call `save_data`.  `created_at` stands for
`datetime.utcnow().isoformat()` and `save_ok` for whether the file write
succeeds. -/
def add_jump_set_record (save_ok : Bool) (guild_id : Nat) (message_channel_id : Nat)
    (message_id : Nat) (channel_ids : List Nat) (category_id : Nat)
    (description : String) (created_at : String) (st : StoreState) : StoreState :=
  save_data save_ok
    { st with jump_sets := st.jump_sets ++
        [{ guild_id := guild_id, message_channel_id := message_channel_id,
           message_id := message_id, channel_ids := channel_ids,
           category_id := category_id, description := description,
           created_at := created_at }] }

/-- `remove_jump_set_record` (bot.py lines 157-164): filter out records
with the given message id; call `save_data` and return `true` only when the
length changed. -/
def remove_jump_set_record (message_id : Nat) (st : StoreState) : Bool × StoreState :=
  let before := st.jump_sets.length
  let kept := st.jump_sets.filter (fun x => x.message_id != message_id)
  let st1 := { st with jump_sets := kept }
  let after := kept.length
  if before ≠ after then (true, save_data true st1) else (false, st1)

/-- The remote platform as seen by the reconciler: the connection-ready
flag, the guild resolver (`bot.get_guild`), and whether fetching a message
in a channel (`ch.fetch_message`) and editing a message (`msg.edit`)
succeed. -/
structure RemoteEnv where
  ready : Bool
  guilds : Nat → Option Guild
  fetch_ok : Nat → Nat → Bool
  edit_ok : Nat → Bool

/-- Full system state threaded through a reconciliation tick: the store,
the interactive views applied to remote messages by successful edits
(newest first), and the warnings logged so far. -/
structure Sys where
  store : StoreState
  views : List (Nat × List (List Button))
  warnings : List String

/-- `edit_jump_message` (bot.py lines 121-136): bail out returning `false`
when the host channel does not resolve to a text channel or thread, when
the message fetch raises, or when the edit raises (the last case logs a
warning); on success apply the re-rendered rows to the message and return
`true`. -/
def edit_jump_message (env : RemoteEnv) (g : Guild) (channel_id : Nat)
    (message_id : Nat) (channel_ids : List Nat) (sys : Sys) : Bool × Sys :=
  match resolve_channel g channel_id with
  | none => (false, sys)
  | some ch =>
    if ch.ctype = ChannelType.text ∨ ch.ctype = ChannelType.thread then
      if env.fetch_ok channel_id message_id then
        let res := build_buttons_for g channel_ids
        if env.edit_ok message_id then
          (true, { sys with views := (message_id, res.2.1) :: sys.views })
        else
          (false, { sys with warnings := sys.warnings ++ ["Failed to edit message"] })
      else (false, sys)
    else (false, sys)

/-- The per-record body of the reconciliation loop (bot.py lines 314-323):
resolve the guild (skip the record when it does not resolve), then run
`edit_jump_message` for the record. -/
def refresh_loop (env : RemoteEnv) : List PanelRecord → Sys → Sys
  | [], sys => sys
  | rec :: rest, sys =>
    match env.guilds rec.guild_id with
    | none => refresh_loop env rest sys
    | some g =>
      let step := edit_jump_message env g rec.message_channel_id rec.message_id
        rec.channel_ids sys
      refresh_loop env rest step.2

/-- `refresh_jump_messages` (bot.py lines 309-324): one reconciliation
tick — a no-op when the connection is not ready, otherwise the per-record
loop over the stored collection.  The tick never calls `save_data`. -/
def refresh_jump_messages (env : RemoteEnv) (sys : Sys) : Sys :=
  if env.ready then refresh_loop env sys.store.jump_sets sys else sys

/-- Summary of what one reconciliation tick does for a single record: the
view applied to its message when every resolution step succeeds, `none`
when any step fails and the record is skipped. -/
def record_outcome (env : RemoteEnv) (rec : PanelRecord) :
    Option (Nat × List (List Button)) :=
  match env.guilds rec.guild_id with
  | none => none
  | some g =>
    match resolve_channel g rec.message_channel_id with
    | none => none
    | some ch =>
      if ch.ctype = ChannelType.text ∨ ch.ctype = ChannelType.thread then
        if env.fetch_ok rec.message_channel_id rec.message_id then
          if env.edit_ok rec.message_id then
            some (rec.message_id, (build_buttons_for g rec.channel_ids).2.1)
          else none
        else none
      else none

/-- Result of the `make_buttons` command core (bot.py lines 215-269),
after input parsing: the three early-return failures and the success
payload (message id, rendered rows, renderer valid/invalid ids, the ids
skipped by the category filter, and the updated store). -/
inductive MakeButtonsOutcome where
  | invalidCategory
  | noValidChannels
  | sendFailed
  | success (message_id : Nat) (rows : List (List Button)) (ok_ids : List Nat)
      (ng_ids : List Nat) (skipped : List Nat) (st : StoreState)
  deriving DecidableEq, Repr

/-- The category filter of `make_buttons` (bot.py lines 238-245): keep the
ids that resolve to a channel under the requested category, collect the
rest as `skipped`. -/
def category_filter (g : Guild) (cat_id : Nat) : List Nat → List Nat × List Nat
  | [] => ([], [])
  | cid :: rest =>
    let tail := category_filter g cat_id rest
    match resolve_channel g cid with
    | some ch =>
      if is_under_category ch cat_id then (cid :: tail.1, tail.2)
      else (tail.1, cid :: tail.2)
    | none => (tail.1, cid :: tail.2)

/-- `make_buttons` command core (bot.py lines 233-262): require the
category id to resolve to a category channel, filter the requested ids to
that category, require a non-empty filtered list, render, publish
(`send_ok` models whether `interaction.channel.send` succeeds;
`new_message_id` is the id of the published message), and register the
record with the renderer's `ok_ids` — not the raw input — as its
`channel_ids`. -/
def make_buttons (g : Guild) (cat_id : Nat) (description : String)
    (ids : List Nat) (send_ok : Bool) (new_message_id : Nat)
    (host_channel_id : Nat) (save_ok : Bool) (now : String)
    (st : StoreState) : MakeButtonsOutcome :=
  match resolve_channel g cat_id with
  | none => MakeButtonsOutcome.invalidCategory
  | some cat =>
    if cat.ctype ≠ ChannelType.category then MakeButtonsOutcome.invalidCategory
    else
      let fs := category_filter g cat_id ids
      if fs.1.isEmpty then MakeButtonsOutcome.noValidChannels
      else
        let res := build_buttons_for g fs.1
        if ¬ send_ok then MakeButtonsOutcome.sendFailed
        else
          let st1 := add_jump_set_record save_ok g.id host_channel_id
            new_message_id res.2.2.1 cat_id description now st
          MakeButtonsOutcome.success new_message_id res.2.1 res.2.2.1 res.2.2.2
            fs.2 st1

/-- Valid-id list of a `make_buttons` outcome, when it succeeded. -/
def outcome_ok_ids : MakeButtonsOutcome → Option (List Nat)
  | MakeButtonsOutcome.success _ _ ok _ _ _ => some ok
  | _ => none

/-- Rendered rows of a `make_buttons` outcome, when it succeeded. -/
def outcome_rows : MakeButtonsOutcome → Option (List (List Button))
  | MakeButtonsOutcome.success _ rows _ _ _ _ => some rows
  | _ => none

/-- Updated store of a `make_buttons` outcome, when it succeeded. -/
def outcome_store : MakeButtonsOutcome → Option StoreState
  | MakeButtonsOutcome.success _ _ _ _ _ st => some st
  | _ => none

/-! Concrete fixtures used to evaluate the definitions on closed inputs. -/

/-- A guild snapshot with thirty text channels, ids 1 through 30. -/
def g30 : Guild :=
  { id := 1,
    channels := (List.range 30).map (fun i =>
      (i + 1, { name := "c", ctype := ChannelType.text, members := 0, categoryId := none })) }

/-- The input id list 1 through 30. -/
def ids30 : List Nat := (List.range 30).map (fun i => i + 1)

/-- A guild snapshot with a category channel 500 and thirty text channels,
ids 1 through 30, all under category 500. -/
def g31 : Guild :=
  { id := 2,
    channels := (500, { name := "cat", ctype := ChannelType.category, members := 0,
                        categoryId := none }) ::
      (List.range 30).map (fun i =>
        (i + 1, { name := "c", ctype := ChannelType.text, members := 0,
                  categoryId := some 500 })) }

/-- A guild snapshot with a category channel 999 and two text channels 111
and 333 under it; channel 222 does not exist. -/
def g4 : Guild :=
  { id := 3,
    channels :=
      [(999, { name := "cat", ctype := ChannelType.category, members := 0, categoryId := none }),
       (111, { name := "a", ctype := ChannelType.text, members := 0, categoryId := some 999 }),
       (333, { name := "b", ctype := ChannelType.text, members := 0, categoryId := some 999 })] }

/-- The record `make_buttons` persists in the C4 scenario: guild `g4`,
host channel 10, message 50, and the renderer's valid list `[111, 333]`. -/
def rec4 : PanelRecord :=
  { guild_id := 3, message_channel_id := 10, message_id := 50, channel_ids := [111, 333],
    category_id := 999, description := "d", created_at := "t" }

/-- A small guild snapshot: text channel 1 and voice channel 3 with two
occupants; id 2 does not exist. -/
def g5 : Guild :=
  { id := 4,
    channels :=
      [(1, { name := "x", ctype := ChannelType.text, members := 0, categoryId := none }),
       (3, { name := "y", ctype := ChannelType.voice, members := 2, categoryId := none })] }

/-- The store state holding no records and no backing file. -/
def emptyStore : StoreState := { jump_sets := [], file := FileState.absent, log := [], writes := 0 }

/-- A concrete record with message id 3. -/
def recA : PanelRecord :=
  { guild_id := 1, message_channel_id := 2, message_id := 3, channel_ids := [4],
    category_id := 5, description := "a", created_at := "t1" }

/-- A concrete record with message id 9. -/
def recB : PanelRecord :=
  { guild_id := 1, message_channel_id := 2, message_id := 9, channel_ids := [4],
    category_id := 5, description := "b", created_at := "t2" }

/-- A store holding exactly `recA`, already persisted. -/
def stW : StoreState :=
  { jump_sets := [recA], file := FileState.content [recA], log := [], writes := 0 }

/-- Guild 10 for the two-record reconciliation scenario: host channel 100
exists (text) and target channel 7 is a voice channel with three
occupants; channel 101 does not exist. -/
def gC3 : Guild :=
  { id := 10,
    channels :=
      [(100, { name := "host", ctype := ChannelType.text, members := 0, categoryId := none }),
       (7, { name := "v", ctype := ChannelType.voice, members := 3, categoryId := none })] }

/-- Record whose host channel 101 no longer exists. -/
def rec1C : PanelRecord :=
  { guild_id := 10, message_channel_id := 101, message_id := 500, channel_ids := [7],
    category_id := 20, description := "p1", created_at := "t" }

/-- Healthy record: host channel 100 exists and resolves to a text channel. -/
def rec2C : PanelRecord :=
  { guild_id := 10, message_channel_id := 100, message_id := 501, channel_ids := [7],
    category_id := 20, description := "p2", created_at := "t" }

/-- Remote environment for the scenario: connection ready, guild 10
resolves, every fetch and edit succeeds. -/
def envC3 : RemoteEnv :=
  { ready := true,
    guilds := fun n => if n = 10 then some gC3 else none,
    fetch_ok := fun _ _ => true,
    edit_ok := fun _ => true }

/-- System state for the scenario: the store holds the broken record
first, then the healthy one. -/
def sysC3 : Sys :=
  { store := { jump_sets := [rec1C, rec2C], file := FileState.content [rec1C, rec2C],
               log := [], writes := 0 },
    views := [], warnings := [] }

/-- A concrete text channel. -/
def chTextW : Channel := { name := "gen", ctype := ChannelType.text, members := 0, categoryId := none }

/-- A concrete voice channel with four occupants. -/
def chVoiceW : Channel := { name := "vc", ctype := ChannelType.voice, members := 4, categoryId := none }

/-- A concrete forum channel (an "other" kind). -/
def chForumW : Channel := { name := "f", ctype := ChannelType.forum, members := 0, categoryId := none }

/-! Helper lemmas. -/

/-- The worker ignores the exact fuel value as long as it bounds the
list length. -/
theorem split_rows_go_fuel {α : Type} (n : Nat) (hn : 0 < n) :
    ∀ (fuel : Nat) (bs : List α), bs.length ≤ fuel →
      split_rows_go n fuel bs = split_rows_go n bs.length bs := by
  intro fuel
  induction fuel using Nat.strong_induction_on with
  | _ fuel ih =>
    intro bs hle
    cases fuel with
    | zero =>
      have hbs : bs = [] := List.eq_nil_of_length_eq_zero (Nat.le_zero.mp hle)
      subst hbs
      rfl
    | succ f =>
      rcases bs with _ | ⟨a, l⟩
      · rfl
      · simp only [List.length_cons] at hle
        simp only [split_rows_go, List.length_cons]
        congr 1
        have hd : ((a :: l).drop n).length ≤ f := by
          simp only [List.length_drop, List.length_cons]
          omega
        have hd2 : ((a :: l).drop n).length ≤ l.length := by
          simp only [List.length_drop, List.length_cons]
          omega
        have hlf : l.length < f + 1 := by omega
        rw [ih f (Nat.lt_succ_self f) _ hd, ih l.length hlf _ hd2]

/-- Unfolding equation for `split_rows`: the Python chunking recurrence. -/
theorem split_rows_eq {α : Type} (bs : List α) (n : Nat) :
    split_rows bs n =
      if n = 0 then []
      else if bs.isEmpty then []
      else bs.take n :: split_rows (bs.drop n) n := by
  by_cases hn : n = 0
  · simp [split_rows, hn]
  · have hpos : 0 < n := Nat.pos_iff_ne_zero.mpr hn
    rcases bs with _ | ⟨a, l⟩
    · simp [split_rows, hn, split_rows_go]
    · simp only [split_rows, hn, if_false, List.isEmpty_cons, Bool.false_eq_true,
        ite_false, List.length_cons, split_rows_go]
      congr 1
      apply split_rows_go_fuel n hpos
      simp only [List.length_drop, List.length_cons]
      omega

/-- Taking `k` rows from `split_rows bs n` and flattening them recovers
the first `k * n` elements of `bs`. -/
theorem split_rows_take_join {α : Type} (n : Nat) (hn : 0 < n) :
    ∀ (m : Nat) (bs : List α), bs.length ≤ m →
      ∀ k : Nat, ((split_rows bs n).take k).flatten = bs.take (k * n) := by
  intro m
  induction m with
  | zero =>
    intro bs hle k
    have hbs : bs = [] := List.eq_nil_of_length_eq_zero (Nat.le_zero.mp hle)
    subst hbs
    simp [split_rows_eq]
  | succ m ih =>
    intro bs hle k
    rw [split_rows_eq]
    rcases bs with _ | ⟨a, l⟩
    · simp
    · have hne : n ≠ 0 := Nat.pos_iff_ne_zero.mp hn
      simp only [hne, if_false, List.isEmpty_cons, if_neg, Bool.false_eq_true,
        not_false_eq_true, ite_false]
      cases k with
      | zero => simp
      | succ k =>
        have hlen : ((a :: l).drop n).length ≤ m := by
          simp only [List.length_drop, List.length_cons] at *
          omega
        rw [List.take_succ_cons, List.flatten_cons, ih _ hlen k]
        rw [Nat.succ_mul, Nat.add_comm (k * n) n, List.take_add]

/-- Every row produced by `split_rows` has at most `n` elements. -/
theorem split_rows_row_len {α : Type} (n : Nat) :
    ∀ (m : Nat) (bs : List α), bs.length ≤ m →
      ∀ r ∈ split_rows bs n, r.length ≤ n := by
  intro m
  induction m with
  | zero =>
    intro bs hle r hr
    have hbs : bs = [] := List.eq_nil_of_length_eq_zero (Nat.le_zero.mp hle)
    subst hbs
    simp [split_rows_eq] at hr
  | succ m ih =>
    intro bs hle r hr
    rw [split_rows_eq] at hr
    rcases bs with _ | ⟨a, l⟩
    · simp at hr
    · by_cases hne : n = 0
      · simp [hne] at hr
      · simp only [hne, if_false, List.isEmpty_cons, Bool.false_eq_true,
          not_false_eq_true, ite_false, List.mem_cons] at hr
        rcases hr with hr | hr
        · subst hr; exact List.length_take_le n _
        · have hlen : ((a :: l).drop n).length ≤ m := by
            have hpos : 0 < n := Nat.pos_iff_ne_zero.mpr hne
            simp only [List.length_drop, List.length_cons] at *
            omega
          exact ih _ hlen r hr

/-- One-pass characterisation of the `build_buttons_for` loop: the button
list is `render_button` filter-mapped over the input, the valid ids are
the resolving ids in input order, the invalid ids the rest. -/
theorem build_buttons_loop_eq (g : Guild) (ids : List Nat) :
    build_buttons_loop g ids =
      (ids.filterMap (render_button g),
       ids.filter (resolves g),
       ids.filter (fun c => !(resolves g c))) := by
  induction ids with
  | nil => simp [build_buttons_loop]
  | cons cid rest ih =>
    simp only [build_buttons_loop, ih]
    rcases h : resolve_channel g cid with _ | ch
    · simp [List.filterMap_cons, List.filter_cons, render_button, resolves, h]
    · simp [List.filterMap_cons, List.filter_cons, render_button, resolves, h]

/-- The button list and the valid-id list of the loop have equal length. -/
theorem length_filterMap_render (g : Guild) (ids : List Nat) :
    (ids.filterMap (render_button g)).length = (ids.filter (resolves g)).length := by
  induction ids with
  | nil => simp
  | cons cid rest ih =>
    rcases h : resolve_channel g cid with _ | ch
    · simp [List.filterMap_cons, List.filter_cons, render_button, resolves, h, ih]
    · simp [List.filterMap_cons, List.filter_cons, render_button, resolves, h, ih]

/-- `save_data` never touches the in-memory collection. -/
theorem save_data_jump_sets (ok : Bool) (st : StoreState) :
    (save_data ok st).jump_sets = st.jump_sets := by
  cases ok <;> simp [save_data]

/-- `edit_jump_message` never touches the store. -/
theorem edit_jump_message_store (env : RemoteEnv) (g : Guild) (channel_id : Nat)
    (message_id : Nat) (channel_ids : List Nat) (sys : Sys) :
    (edit_jump_message env g channel_id message_id channel_ids sys).2.store = sys.store := by
  rcases h : resolve_channel g channel_id with _ | ch
  · simp [edit_jump_message, h]
  · simp only [edit_jump_message, h]
    split
    · split
      · split <;> simp
      · simp
    · simp

/-- The reconciliation loop never touches the store. -/
theorem refresh_loop_store (env : RemoteEnv) :
    ∀ (recs : List PanelRecord) (sys : Sys),
      (refresh_loop env recs sys).store = sys.store := by
  intro recs
  induction recs with
  | nil => intro sys; simp [refresh_loop]
  | cons rec rest ih =>
    intro sys
    simp only [refresh_loop]
    rcases hg : env.guilds rec.guild_id with _ | g
    · exact ih sys
    · rw [ih]
      exact edit_jump_message_store env g _ _ _ sys

/-- The views applied by the reconciliation loop are exactly the
per-record outcomes, one per record, independent of each other. -/
theorem refresh_loop_views (env : RemoteEnv) :
    ∀ (recs : List PanelRecord) (sys : Sys),
      (refresh_loop env recs sys).views =
        (recs.filterMap (record_outcome env)).reverse ++ sys.views := by
  intro recs
  induction recs with
  | nil => intro sys; simp [refresh_loop]
  | cons rec rest ih =>
    intro sys
    simp only [refresh_loop, List.filterMap_cons]
    rcases hg : env.guilds rec.guild_id with _ | g
    · simp [record_outcome, hg, ih]
    · simp only [record_outcome, hg]
      rcases hc : resolve_channel g rec.message_channel_id with _ | ch
      · simp [edit_jump_message, hc, ih]
      · by_cases ht : ch.ctype = ChannelType.text ∨ ch.ctype = ChannelType.thread
        · by_cases hf : env.fetch_ok rec.message_channel_id rec.message_id = true
          · by_cases he : env.edit_ok rec.message_id = true
            · simp [edit_jump_message, hc, ht, hf, he, ih]
            · simp [edit_jump_message, hc, ht, hf, he, ih]
          · simp [edit_jump_message, hc, ht, hf, ih]
        · simp [edit_jump_message, hc, ht, ih]

/-! Claim theorems. -/

/-- Claim C1, counterexample: `save_data` is not a crash-safe replace.
The file passes through a truncated state that is neither the previous
valid snapshot nor the new one, so a crash mid-write corrupts the
previous snapshot. -/
theorem save_data_not_crash_safe :
    ¬ crash_safe_save (FileState.content [recA]) [recB] := by
  intro h
  have ht := h FileState.truncated (by simp [save_data_file_states])
  rcases ht with h1 | h1 <;> exact FileState.noConfusion h1

/-- Claim C1 (amended): `save_data` rewrites the data file in place —
`open(DATA_FILE, "w")` truncates it and `json.dump` writes the new
collection, with no temporary file and no rename — so the file passes
through a truncated state mid-write; a successful write ends with the new
snapshot on disk, a failed write is logged, and in either case the
in-memory collection remains authoritative for the running process. -/
theorem save_data_in_place_write (old : FileState) (d : List PanelRecord)
    (st : StoreState) :
    (save_data_file_states old d).getLast? = some (FileState.content d)
    ∧ FileState.truncated ∈ save_data_file_states old d
    ∧ (save_data true st).jump_sets = st.jump_sets
    ∧ (save_data true st).file = FileState.content st.jump_sets
    ∧ (save_data false st).jump_sets = st.jump_sets
    ∧ (save_data false st).file = st.file
    ∧ (save_data false st).log = st.log ++ [save_error_log] := by
  refine ⟨rfl, by simp [save_data_file_states], ?_, ?_, ?_, ?_, ?_⟩ <;> simp [save_data]

/-- Evaluation of the amended C1 statement on concrete inputs. -/
theorem save_data_in_place_write_witness :
    FileState.truncated ∈ save_data_file_states FileState.absent [] :=
  (save_data_in_place_write FileState.absent [] emptyStore).2.1

/-- Claim C2: the renderer partitions the buttons of the resolved ids
into rows of at most 5, truncated to at most 5 rows, so the output never
holds more than 25 buttons; concretely, for 30 ids that all resolve the
output holds exactly 25 buttons (the 26th through 30th are dropped) and no
error is raised (the renderer is a total function). -/
theorem build_buttons_for_cap (g : Guild) (ids : List Nat) :
    ((build_buttons_for g ids).2.1).flatten = (ids.filterMap (render_button g)).take 25
    ∧ ((build_buttons_for g ids).2.1).length ≤ 5
    ∧ (∀ row ∈ (build_buttons_for g ids).2.1, row.length ≤ 5)
    ∧ ((build_buttons_for g ids).2.1).flatten.length ≤ 25
    ∧ ((build_buttons_for g30 ids30).2.1).flatten.length = 25 := by
  have hbs : (build_buttons_loop g ids).1 = ids.filterMap (render_button g) := by
    rw [build_buttons_loop_eq]
  have hrows : (build_buttons_for g ids).2.1
      = (split_rows (ids.filterMap (render_button g)) 5).take 5 := by
    simp [build_buttons_for, hbs]
  have hj : ((split_rows (ids.filterMap (render_button g)) 5).take 5).flatten
      = (ids.filterMap (render_button g)).take 25 := by
    have h := split_rows_take_join 5 (by omega) (ids.filterMap (render_button g)).length
      (ids.filterMap (render_button g)) (le_refl _) 5
    simpa using h
  refine ⟨by rw [hrows]; exact hj, ?_, ?_, ?_, by decide⟩
  · rw [hrows]; exact List.length_take_le 5 _
  · intro row hrow
    rw [hrows] at hrow
    have hmem : row ∈ split_rows (ids.filterMap (render_button g)) 5 :=
      List.take_subset _ _ hrow
    exact split_rows_row_len 5 (ids.filterMap (render_button g)).length _
      (le_refl _) row hmem
  · rw [hrows, hj]
    exact List.length_take_le 25 _

/-- Evaluation of C2 on the concrete 30-id snapshot. -/
theorem build_buttons_for_cap_witness :
    ((build_buttons_for g30 ids30).2.1).flatten.length = 25 :=
  (build_buttons_for_cap g30 ids30).2.2.2.2

/-- Claim C8: the renderer is deterministic — two runs on the same guild
snapshot and the same ordered id list produce identical output (labels,
urls, row partition, valid list and invalid list). -/
theorem build_buttons_for_deterministic (g1 g2 : Guild) (ids1 ids2 : List Nat)
    (hg : g1 = g2) (hi : ids1 = ids2) :
    build_buttons_for g1 ids1 = build_buttons_for g2 ids2 := by
  subst hg
  subst hi
  rfl

/-- Evaluation of C8 on a concrete snapshot. -/
theorem build_buttons_for_deterministic_witness :
    g5 = g5 ∧ ([1, 2, 3] : List Nat) = [1, 2, 3]
    ∧ build_buttons_for g5 [1, 2, 3] = build_buttons_for g5 [1, 2, 3] :=
  ⟨rfl, rfl, build_buttons_for_deterministic g5 g5 [1, 2, 3] [1, 2, 3] rfl rfl⟩

/-- Claim C9: button labels by channel kind — text-like channels render
as the name with a `#` marker; voice-like channels (voice and stage)
render with the current occupant count in parentheses; every other kind
renders as the bare name. -/
theorem label_for_channel_spec (ch : Channel) :
    (ch.ctype = ChannelType.text → label_for_channel ch = "#" ++ ch.name)
    ∧ ((ch.ctype = ChannelType.voice ∨ ch.ctype = ChannelType.stage) →
        label_for_channel ch
          = "🔊 " ++ ch.name ++ " (" ++ toString (vc_member_count ch) ++ ")"
        ∧ vc_member_count ch = ch.members)
    ∧ ((ch.ctype ≠ ChannelType.text ∧ ch.ctype ≠ ChannelType.voice
          ∧ ch.ctype ≠ ChannelType.stage) →
        label_for_channel ch = ch.name) := by
  obtain ⟨nm, ct, mem, cat⟩ := ch
  cases ct <;> simp [label_for_channel, vc_member_count]

/-- Evaluation of C9 on one channel of each kind. -/
theorem label_for_channel_spec_witness :
    chTextW.ctype = ChannelType.text
    ∧ label_for_channel chTextW = "#" ++ chTextW.name
    ∧ (chVoiceW.ctype = ChannelType.voice ∨ chVoiceW.ctype = ChannelType.stage)
    ∧ label_for_channel chVoiceW
        = "🔊 " ++ chVoiceW.name ++ " (" ++ toString (vc_member_count chVoiceW) ++ ")"
    ∧ (chForumW.ctype ≠ ChannelType.text ∧ chForumW.ctype ≠ ChannelType.voice
        ∧ chForumW.ctype ≠ ChannelType.stage)
    ∧ label_for_channel chForumW = chForumW.name :=
  ⟨rfl, (label_for_channel_spec chTextW).1 rfl, Or.inl rfl,
   ((label_for_channel_spec chVoiceW).2.1 (Or.inl rfl)).1,
   ⟨by decide, by decide, by decide⟩,
   (label_for_channel_spec chForumW).2.2 ⟨by decide, by decide, by decide⟩⟩

/-- Claim C5: for a duplicate-free input of at most 25 ids the renderer
emits exactly one button per resolving id, in input order; every
non-resolving id lands in the invalid list and yields no button. -/
theorem build_buttons_for_one_per_valid (g : Guild) (ids : List Nat)
    (hnd : ids.Nodup) (hlen : ids.length ≤ 25) :
    ((build_buttons_for g ids).2.1).flatten = ids.filterMap (render_button g)
    ∧ (build_buttons_for g ids).2.2.1 = ids.filter (resolves g)
    ∧ (build_buttons_for g ids).2.2.2 = ids.filter (fun c => !(resolves g c))
    ∧ ((build_buttons_for g ids).2.1).flatten.length
        = ((build_buttons_for g ids).2.2.1).length
    ∧ (∀ cid ∈ (build_buttons_for g ids).2.2.1,
        ((build_buttons_for g ids).2.2.1).count cid = 1)
    ∧ (∀ cid ∈ (build_buttons_for g ids).2.2.2, render_button g cid = none) := by
  have hloop := build_buttons_loop_eq g ids
  have hok : (build_buttons_for g ids).2.2.1 = ids.filter (resolves g) := by
    simp [build_buttons_for, hloop]
  have hng : (build_buttons_for g ids).2.2.2
      = ids.filter (fun c => !(resolves g c)) := by
    simp [build_buttons_for, hloop]
  have hbs : (build_buttons_loop g ids).1 = ids.filterMap (render_button g) := by
    rw [hloop]
  have hlen2 : (ids.filterMap (render_button g)).length ≤ 25 :=
    le_trans (List.length_filterMap_le _ _) hlen
  have hflat : ((build_buttons_for g ids).2.1).flatten
      = ids.filterMap (render_button g) := by
    have hj : ((split_rows (ids.filterMap (render_button g)) 5).take 5).flatten
        = (ids.filterMap (render_button g)).take 25 := by
      have h := split_rows_take_join 5 (by omega) (ids.filterMap (render_button g)).length
        (ids.filterMap (render_button g)) (le_refl _) 5
      simpa using h
    simp only [build_buttons_for, hbs]
    rw [hj, List.take_of_length_le hlen2]
  refine ⟨hflat, hok, hng, ?_, ?_, ?_⟩
  · rw [hflat, hok, length_filterMap_render]
  · intro cid hcid
    rw [hok] at hcid ⊢
    exact List.count_eq_one_of_mem (List.Nodup.filter _ hnd) hcid
  · intro cid hcid
    rw [hng] at hcid
    have hres := (List.mem_filter.mp hcid).2
    have h2 : resolve_channel g cid = none := by
      rcases h : resolve_channel g cid with _ | ch
      · rfl
      · rw [resolves, h] at hres
        simp at hres
    simp [render_button, h2]

/-- Evaluation of C5 on a concrete snapshot. -/
theorem build_buttons_for_one_per_valid_witness :
    ([1, 2, 3] : List Nat).Nodup ∧ ([1, 2, 3] : List Nat).length ≤ 25
    ∧ (build_buttons_for g5 [1, 2, 3]).2.2.1 = List.filter (resolves g5) [1, 2, 3] :=
  ⟨by decide, by decide,
   (build_buttons_for_one_per_valid g5 [1, 2, 3] (by decide) (by decide)).2.1⟩

/-- Claim C6: removing an absent message id returns `false` and performs
no write (the state is unchanged); removing a present id returns `true`,
drops the matching records, persists the collection, and the id is absent
from a subsequent load. -/
theorem remove_jump_set_record_spec (st : StoreState) (mid : Nat) :
    ((∀ r ∈ st.jump_sets, r.message_id ≠ mid) →
        remove_jump_set_record mid st = (false, st))
    ∧ ((∃ r ∈ st.jump_sets, r.message_id = mid) →
        (remove_jump_set_record mid st).1 = true
        ∧ (remove_jump_set_record mid st).2.jump_sets
            = st.jump_sets.filter (fun r => r.message_id != mid)
        ∧ (remove_jump_set_record mid st).2.file
            = FileState.content (st.jump_sets.filter (fun r => r.message_id != mid))
        ∧ (remove_jump_set_record mid st).2.writes = st.writes + 1
        ∧ ∀ r ∈ load_jump_sets (remove_jump_set_record mid st).2.file,
            r.message_id ≠ mid) := by
  constructor
  · intro h
    have hfil : st.jump_sets.filter (fun r => r.message_id != mid) = st.jump_sets := by
      apply List.filter_eq_self.mpr
      intro a ha
      simpa using h a ha
    simp [remove_jump_set_record, hfil]
  · intro h
    obtain ⟨r0, hr0, hr0m⟩ := h
    have hlt : (st.jump_sets.filter (fun r => r.message_id != mid)).length
        ≠ st.jump_sets.length := by
      intro heq
      have hall := List.filter_length_eq_length.mp heq r0 hr0
      rw [hr0m] at hall
      simp at hall
    have hc : st.jump_sets.length
        ≠ (st.jump_sets.filter (fun r => r.message_id != mid)).length :=
      fun he => hlt he.symm
    simp only [remove_jump_set_record, bne_iff_ne, ne_eq]
    rw [if_pos ?hcond]
    case hcond => simpa using hc
    refine ⟨rfl, by simp [save_data], by simp [save_data], by simp [save_data], ?_⟩
    intro r hr
    simp only [save_data, if_pos, load_jump_sets] at hr
    have := (List.mem_filter.mp hr).2
    simpa using this

/-- Evaluation of C6 on a concrete store: id 3 is present, id 99 is not. -/
theorem remove_jump_set_record_spec_witness :
    (∃ r ∈ stW.jump_sets, r.message_id = 3)
    ∧ (remove_jump_set_record 3 stW).1 = true
    ∧ (∀ r ∈ stW.jump_sets, r.message_id ≠ 99)
    ∧ remove_jump_set_record 99 stW = (false, stW) :=
  ⟨⟨recA, by decide, by decide⟩,
   ((remove_jump_set_record_spec stW 3).2 ⟨recA, by decide, by decide⟩).1,
   by decide,
   (remove_jump_set_record_spec stW 99).1 (by decide)⟩

/-- Claim C7: a reconciliation tick never mutates the record store — the
collection, every record and every stored `channel_ids` list are the same
before and after the tick; no record is pruned or auto-removed. -/
theorem refresh_jump_messages_read_only (env : RemoteEnv) (sys : Sys) :
    (refresh_jump_messages env sys).store = sys.store := by
  unfold refresh_jump_messages
  split
  · exact refresh_loop_store env sys.store.jump_sets sys
  · rfl

/-- Evaluation of C7 on the concrete two-record scenario. -/
theorem refresh_jump_messages_read_only_witness :
    (refresh_jump_messages envC3 sysC3).store = sysC3.store :=
  refresh_jump_messages_read_only envC3 sysC3

/-- Claim C3: records are processed independently in a tick — the applied
edits are exactly the per-record outcomes, so a failure on one record
never suppresses the edit of another; concretely, with a first record
whose host channel no longer exists and a healthy second record, the
second record's message is still edited. -/
theorem refresh_isolates_record_failures :
    (∀ (env : RemoteEnv) (sys : Sys),
        (refresh_jump_messages env sys).views =
          if env.ready then
            (sys.store.jump_sets.filterMap (record_outcome env)).reverse ++ sys.views
          else sys.views)
    ∧ (refresh_jump_messages envC3 sysC3).views
        = [(501, [[{ label := "🔊 v (3)", url := "https://discord.com/channels/10/7" }]])]
    ∧ record_outcome envC3 rec1C = none
    ∧ record_outcome envC3 rec2C
        = some (501, [[{ label := "🔊 v (3)", url := "https://discord.com/channels/10/7" }]]) := by
  refine ⟨?_, by decide, by decide, by decide⟩
  intro env sys
  by_cases hr : env.ready = true
  · simp only [refresh_jump_messages, hr, if_true]
    exact refresh_loop_views env sys.store.jump_sets sys
  · simp [refresh_jump_messages, hr]

/-- Evaluation of C3's general part on the concrete scenario. -/
theorem refresh_isolates_record_failures_witness :
    (refresh_jump_messages envC3 sysC3).views =
      if envC3.ready then
        (sysC3.store.jump_sets.filterMap (record_outcome envC3)).reverse ++ sysC3.views
      else sysC3.views :=
  refresh_isolates_record_failures.1 envC3 sysC3

/-- Claim C4: when `make_buttons` succeeds, the persisted record's
`channel_ids` is the renderer's valid list computed from the
category-filtered input, not the raw requested list; concretely, for
`[111, 222, 333]` under category 999 where 222 does not resolve, the
result has valid ids `[111, 333]`, the filter-rejected ids `[222]` (the
union of `skipped` and `ng_ids` reported by the command), one row of two
buttons, and a persisted record whose `channel_ids` is `[111, 333]`. -/
theorem make_buttons_persists_valid_ids :
    (∀ (g : Guild) (cat : Nat) (d : String) (ids : List Nat) (sendOk : Bool)
        (mid host : Nat) (saveOk : Bool) (now : String) (st : StoreState)
        (mid' : Nat) (rows : List (List Button)) (ok ng sk : List Nat)
        (st' : StoreState),
        make_buttons g cat d ids sendOk mid host saveOk now st
          = MakeButtonsOutcome.success mid' rows ok ng sk st' →
        ok = (build_buttons_for g (category_filter g cat ids).1).2.2.1
        ∧ st'.jump_sets = st.jump_sets ++
            [{ guild_id := g.id, message_channel_id := host, message_id := mid,
               channel_ids := ok, category_id := cat, description := d,
               created_at := now }])
    ∧ make_buttons g4 999 "d" [111, 222, 333] true 50 10 true "t" emptyStore
        = MakeButtonsOutcome.success 50
            [[{ label := "#a", url := "https://discord.com/channels/3/111" },
              { label := "#b", url := "https://discord.com/channels/3/333" }]]
            [111, 333] [] [222]
            { jump_sets := [rec4], file := FileState.content [rec4], log := [],
              writes := 1 }
    ∧ (category_filter g4 999 [111, 222, 333]).2 ++
        (build_buttons_for g4 (category_filter g4 999 [111, 222, 333]).1).2.2.2
        = [222]
    ∧ rec4.channel_ids = [111, 333] := by
  refine ⟨?_, by decide, by decide, by decide⟩
  intro g cat d ids sendOk mid host saveOk now st mid' rows ok ng sk st' h
  simp only [make_buttons] at h
  rcases hrc : resolve_channel g cat with _ | c
  · rw [hrc] at h
    exact MakeButtonsOutcome.noConfusion h
  · rw [hrc] at h
    simp only at h
    by_cases hct : c.ctype = ChannelType.category
    · rw [if_neg (fun hne => hne hct)] at h
      by_cases hemp : (category_filter g cat ids).1.isEmpty = true
      · rw [if_pos hemp] at h
        exact MakeButtonsOutcome.noConfusion h
      · rw [if_neg hemp] at h
        by_cases hs : sendOk = true
        · rw [if_neg (by simp [hs])] at h
          injection h with h1 h2 h3 h4 h5 h6
          subst h1
          subst h2
          subst h3
          subst h4
          subst h5
          subst h6
          refine ⟨rfl, ?_⟩
          simp [add_jump_set_record, save_data_jump_sets]
        · rw [if_pos (by simp [hs])] at h
          exact MakeButtonsOutcome.noConfusion h
    · rw [if_pos hct] at h
      exact MakeButtonsOutcome.noConfusion h

/-- Evaluation of C4's general part at the concrete scenario. -/
theorem make_buttons_persists_valid_ids_witness :
    [111, 333] = (build_buttons_for g4 (category_filter g4 999 [111, 222, 333]).1).2.2.1
    ∧ ({ jump_sets := [rec4], file := FileState.content [rec4], log := [],
         writes := 1 } : StoreState).jump_sets
        = emptyStore.jump_sets ++
          [{ guild_id := g4.id, message_channel_id := 10, message_id := 50,
             channel_ids := [111, 333], category_id := 999, description := "d",
             created_at := "t" }] :=
  make_buttons_persists_valid_ids.1 g4 999 "d" [111, 222, 333] true 50 10 true "t"
    emptyStore 50
    [[{ label := "#a", url := "https://discord.com/channels/3/111" },
      { label := "#b", url := "https://discord.com/channels/3/333" }]]
    [111, 333] [] [222]
    { jump_sets := [rec4], file := FileState.content [rec4], log := [], writes := 1 }
    (by decide)

/-- Claim C10: the valid-id list is not truncated by the 25-button cap —
it is always the full list of resolving ids in input order; concretely,
creating a panel over 30 resolvable ids persists a record with all 30 ids
while the rendered message carries only 25 buttons. -/
theorem valid_ids_not_capped :
    (∀ (g : Guild) (ids : List Nat),
        (build_buttons_for g ids).2.2.1 = ids.filter (resolves g))
    ∧ outcome_ok_ids (make_buttons g31 500 "d" ids30 true 77 9 true "t" emptyStore)
        = some ids30
    ∧ (outcome_rows (make_buttons g31 500 "d" ids30 true 77 9 true "t" emptyStore)).map
        (fun rows => rows.flatten.length) = some 25
    ∧ (outcome_store (make_buttons g31 500 "d" ids30 true 77 9 true "t" emptyStore)).map
        (fun s => s.jump_sets.map (fun r => r.channel_ids)) = some [ids30]
    ∧ ids30.length = 30 := by
  refine ⟨?_, by decide, by decide, by decide, by decide⟩
  intro g ids
  simp [build_buttons_for, build_buttons_loop_eq]

/-- Evaluation of C10's general part on the 30-channel snapshot. -/
theorem valid_ids_not_capped_witness :
    (build_buttons_for g30 ids30).2.2.1 = List.filter (resolves g30) ids30 :=
  valid_ids_not_capped.1 g30 ids30
